import Mathlib

/-
Verification of the kuksa-databroker connection-management client
(kuksa-grpc/src/lib.rs) and the sdv.databroker.v1 collector service
(databroker/src/grpc/sdv_databroker_v1/collector.rs) against their
natural-language specification.  Rust state is embedded as explicit
state passing; the transport build, the external Store collaborator
and the interleaving of the ingestion loop's select are supplied as
explicit parameters.
-/

set_option maxHeartbeats 1000000

/-- Connection-state events published on the broadcast hub
(kuksa-grpc/src/lib.rs, enum ConnectionState). -/
inductive ConnectionState where
  | Connected
  | Disconnected
deriving DecidableEq, Repr

/-- Broadcast hub embedding a tokio broadcast sender of ConnectionState:
receivers counts the live subscriber handles, log records the events that
were actually delivered. -/
structure Hub where
  receivers : Nat
  log : List ConnectionState
deriving DecidableEq, Repr

/-- Send on the broadcast hub: tokio broadcast send delivers to every
current receiver and returns an error exactly when no live receiver
exists.  Returns the updated hub and whether the send succeeded. -/
def Hub.send (h : Hub) (e : ConnectionState) : Hub × Bool :=
  if h.receivers = 0 then (h, false)
  else ({ h with log := h.log ++ [e] }, true)

/-- Client errors (kuksa-grpc/src/lib.rs, enum Error). -/
inductive KuksaError where
  | Connection (msg : String)
  | Status (msg : String)
deriving DecidableEq, Repr

/-- Token errors (kuksa-grpc/src/lib.rs, enum TokenError). -/
inductive TokenError where
  | MalformedTokenError (msg : String)
deriving DecidableEq, Repr

/-- Client state (kuksa-grpc/src/lib.rs, struct Client, non-tls build):
endpoint uri, the optionally stored token header bytes, the optionally
established channel handle, and the lazily created connection-state hub. -/
structure Client where
  uri : String
  token : Option (List Nat)
  channel : Option Nat
  connection_state_subs : Option Hub
deriving DecidableEq, Repr

/-- Valid header-value byte as checked by the http crate when building an
ascii metadata value from a string (used by set_access_token): horizontal
tab, or any byte from 32 upward except DEL (127). -/
def isValidHeaderByte (b : Nat) : Bool :=
  b = 9 || (32 ≤ b && b ≠ 127)

/-- Byte string of "Bearer " followed by the supplied token text, as built
by set_access_token via format. -/
def bearerBytes (token : List Nat) : List Nat :=
  [66, 101, 97, 114, 101, 114, 32] ++ token

/-- Error text produced when header-value parsing rejects the token. -/
def invalidHeaderValueMsg : String := "failed to parse header value"

/-- Client.set_access_token: builds "Bearer " ++ token and validates it as
an ascii metadata value; on success stores it for future calls, on failure
returns MalformedTokenError and leaves the stored token unchanged. -/
def Client.set_access_token (c : Client) (token : List Nat) :
    Client × Except TokenError Unit :=
  if (bearerBytes token).all isValidHeaderByte then
    ({ c with token := some (bearerBytes token) }, Except.ok ())
  else
    (c, Except.error (TokenError.MalformedTokenError invalidHeaderValueMsg))

/-- Client.is_connected: true iff a channel handle currently exists. -/
def Client.is_connected (c : Client) : Bool :=
  c.channel.isSome

/-- Client.try_create_channel (non-tls build): the outcome of the
transport build at the current endpoint is supplied as the build
parameter.  On a successful build, a Connected event is sent on the hub
when one exists — a send failure there is propagated as a Connection
error before the channel is stored; otherwise the channel is stored and
its handle returned.  On a failed build, a Disconnected event is sent
best-effort (the send result is discarded) and a Connection error naming
the endpoint and the transport error is returned. -/
def Client.try_create_channel (c : Client) (build : Except String Nat) :
    Client × Except KuksaError Nat :=
  match build with
  | Except.ok channel =>
    match c.connection_state_subs with
    | some subs =>
      match Hub.send subs ConnectionState.Connected with
      | (subs', true) =>
        ({ c with connection_state_subs := some subs', channel := some channel },
         Except.ok channel)
      | (subs', false) =>
        ({ c with connection_state_subs := some subs' },
         Except.error (KuksaError.Connection
           "Failed to notify connection state change: channel closed"))
    | none =>
      ({ c with channel := some channel }, Except.ok channel)
  | Except.error err =>
    match c.connection_state_subs with
    | some subs =>
      let subs' := (Hub.send subs ConnectionState.Disconnected).1
      ({ c with connection_state_subs := some subs' },
       Except.error (KuksaError.Connection
        ("Failed to connect to " ++ c.uri ++ ": " ++ err)))
    | none =>
      (c, Except.error (KuksaError.Connection
        ("Failed to connect to " ++ c.uri ++ ": " ++ err)))

/-- Client.try_connect: one try_create_channel attempt at the current
endpoint, discarding the returned channel reference. -/
def Client.try_connect (c : Client) (build : Except String Nat) :
    Client × Except KuksaError Unit :=
  match c.try_create_channel build with
  | (c', Except.ok _) => (c', Except.ok ())
  | (c', Except.error e) => (c', Except.error e)

/-- Client.try_connect_to: replaces the endpoint, then behaves as
try_connect. -/
def Client.try_connect_to (c : Client) (uri : String)
    (build : Except String Nat) : Client × Except KuksaError Unit :=
  Client.try_connect { c with uri := uri } build

/-- Client.get_channel: returns the existing channel if present, otherwise
performs exactly one try_create_channel attempt. -/
def Client.get_channel (c : Client) (build : Except String Nat) :
    Client × Except KuksaError Nat :=
  match c.channel with
  | none => c.try_create_channel build
  | some channel => (c, Except.ok channel)

/-- Outgoing request carrying a metadata map of header key and value
pairs (tonic Request of unit as seen by the auth interceptor). -/
structure TonicRequest where
  metadata : List (String × List Nat)
deriving DecidableEq, Repr

/-- Header-map insert: replaces the value of an existing key in place,
otherwise appends the pair. -/
def insertHeader : List (String × List Nat) → String → List Nat →
    List (String × List Nat)
  | [], k, v => [(k, v)]
  | p :: rest, k, v =>
    if p.1 == k then (k, v) :: rest else p :: insertHeader rest k v

/-- Header-map lookup. -/
def getHeader : List (String × List Nat) → String → Option (List Nat)
  | [], _ => none
  | p :: rest, k => if p.1 == k then some p.2 else getHeader rest k

/-- Client.get_auth_interceptor, applied to an outgoing request: inserts
the stored token as an "authorization" header when a token is set,
otherwise passes the request through unchanged; always returns the
request successfully. -/
def Client.get_auth_interceptor (c : Client) (req : TonicRequest) :
    Except String TonicRequest :=
  match c.token with
  | some tok =>
    Except.ok { metadata := insertHeader req.metadata "authorization" tok }
  | none => Except.ok req

/-- Proto datapoint payload carried in collector requests: opaque to the
collector, which only forwards it to the store. -/
structure ProtoDatapoint where
  raw : Nat
deriving DecidableEq, Repr

/-- Broker-side datapoint obtained from a proto datapoint by the
Datapoint from conversion. -/
structure BrokerDatapoint where
  ofProto : ProtoDatapoint
deriving DecidableEq, Repr

/-- Broker EntryUpdate record (broker::EntryUpdate as filled in by the
collector handlers: only the datapoint field is ever populated there). -/
structure EntryUpdate where
  path : Option String
  datapoint : Option BrokerDatapoint
  actuator_target : Option BrokerDatapoint
  entry_type : Option Nat
  data_type : Option Nat
  description : Option String
  allowed : Option (List Nat)
  max : Option Nat
  min : Option Nat
  unit : Option String
deriving DecidableEq, Repr

/-- EntryUpdate built by update_datapoints and the ingestion loop for one
inbound datapoint: only the datapoint field is set, every other field is
none. -/
def entryUpdateOf (dp : ProtoDatapoint) : EntryUpdate :=
  { path := none, datapoint := some { ofProto := dp },
    actuator_target := none, entry_type := none, data_type := none,
    description := none, allowed := none, max := none, min := none,
    unit := none }

/-- Modelled from the spec: per-item failure kinds returned by the external
Store collaborator's update_entries (broker::UpdateError lives outside this
excerpt); the spec's FailureKind taxonomy. -/
inductive UpdateError where
  | InvalidType
  | OutOfBounds
  | UnknownDatapoint
  | AccessDenied
  | InternalError
deriving DecidableEq, Repr

/-- Modelled from the spec: translation of a store failure kind to the wire
error code placed in replies (proto DatapointError as i32; the conversion
lives outside this excerpt). -/
def wireCode : UpdateError → Int
  | UpdateError.UnknownDatapoint => 0
  | UpdateError.InvalidType => 1
  | UpdateError.AccessDenied => 2
  | UpdateError.InternalError => 3
  | UpdateError.OutOfBounds => 4

/-- Status codes used by the collector handlers. -/
inductive Code where
  | Unauthenticated
  | PermissionDenied
  | InvalidArgument
deriving DecidableEq, Repr

/-- Tonic status: a code plus a human-readable message. -/
structure Status where
  code : Code
  message : String
deriving DecidableEq, Repr

/-- Opaque authorization context attached to requests by an upstream
interceptor. -/
structure Permissions where
  id : Nat
deriving DecidableEq, Repr

/-- Registration failure kinds returned by Store.add_entry
(broker::RegistrationError, matched exhaustively in register_datapoints). -/
inductive RegistrationError where
  | PermissionDenied
  | PermissionExpired
  | ValidationError
deriving DecidableEq, Repr

/-- Modelled from the spec: the sdv.databroker.v1 DataType proto enum whose
generated try_from decoder is called by register_datapoints (the generated
code lives outside this excerpt).  Scalar codes are 0 to 12, array codes 20
to 32. -/
inductive ProtoDataType where
  | String | Bool | Int8 | Int16 | Int32 | Int64
  | Uint8 | Uint16 | Uint32 | Uint64 | Float | Double | Timestamp
  | StringArray | BoolArray | Int8Array | Int16Array | Int32Array
  | Int64Array | Uint8Array | Uint16Array | Uint32Array | Uint64Array
  | FloatArray | DoubleArray | TimestampArray
deriving DecidableEq, Repr

/-- Modelled from the spec: decoder of a DataType wire code, defined on
exactly the enum's assigned values. -/
def ProtoDataType.tryFrom : Int → Option ProtoDataType
  | 0 => some ProtoDataType.String
  | 1 => some ProtoDataType.Bool
  | 2 => some ProtoDataType.Int8
  | 3 => some ProtoDataType.Int16
  | 4 => some ProtoDataType.Int32
  | 5 => some ProtoDataType.Int64
  | 6 => some ProtoDataType.Uint8
  | 7 => some ProtoDataType.Uint16
  | 8 => some ProtoDataType.Uint32
  | 9 => some ProtoDataType.Uint64
  | 10 => some ProtoDataType.Float
  | 11 => some ProtoDataType.Double
  | 12 => some ProtoDataType.Timestamp
  | 20 => some ProtoDataType.StringArray
  | 21 => some ProtoDataType.BoolArray
  | 22 => some ProtoDataType.Int8Array
  | 23 => some ProtoDataType.Int16Array
  | 24 => some ProtoDataType.Int32Array
  | 25 => some ProtoDataType.Int64Array
  | 26 => some ProtoDataType.Uint8Array
  | 27 => some ProtoDataType.Uint16Array
  | 28 => some ProtoDataType.Uint32Array
  | 29 => some ProtoDataType.Uint64Array
  | 30 => some ProtoDataType.FloatArray
  | 31 => some ProtoDataType.DoubleArray
  | 32 => some ProtoDataType.TimestampArray
  | _ => none

/-- Modelled from the spec: the sdv.databroker.v1 ChangeType proto enum
whose generated try_from decoder is called by register_datapoints. -/
inductive ProtoChangeType where
  | Static
  | OnChange
  | Continuous
deriving DecidableEq, Repr

/-- Modelled from the spec: decoder of a ChangeType wire code. -/
def ProtoChangeType.tryFrom : Int → Option ProtoChangeType
  | 0 => some ProtoChangeType.Static
  | 1 => some ProtoChangeType.OnChange
  | 2 => some ProtoChangeType.Continuous
  | _ => none

/-- Broker-side data type obtained from the decoded proto value by the
DataType from conversion. -/
structure BrokerDataType where
  ofProto : ProtoDataType
deriving DecidableEq, Repr

/-- Broker-side change type obtained from the decoded proto value by the
ChangeType from conversion. -/
structure BrokerChangeType where
  ofProto : ProtoChangeType
deriving DecidableEq, Repr

/-- Broker entry roles (broker::types::EntryType); register_datapoints
always registers with the Sensor role. -/
inductive EntryType where
  | Sensor
  | Attribute
  | Actuator
deriving DecidableEq, Repr

/-- Record of one call made by a handler into the Store collaborator. -/
inductive StoreCall where
  | updateEntries (batch : List (Int × EntryUpdate))
  | addEntry (name : String) (dataType : BrokerDataType)
      (changeType : BrokerChangeType) (entryType : EntryType)
      (description : String)
deriving DecidableEq, Repr

/-- External Store collaborator interface consumed by the collector:
outcomes of update_entries and add_entry are supplied as oracles.  The
update_entries error carries the map from failing id to failure kind; ids
absent from it succeeded.  The add_entry arguments mirror name, data type,
change type, entry type, description, min, max, unit and allowed. -/
structure StoreModel where
  update_entries : List (Int × EntryUpdate) →
    Except (List (Int × UpdateError)) Unit
  add_entry : String → BrokerDataType → BrokerChangeType → EntryType →
    String → Option Nat → Option Nat → Option String → Option (List Nat) →
    Except RegistrationError Int

/-- Incoming request envelope: the extensions may carry a Permissions
object attached by the upstream interceptor. -/
structure GrpcRequest (α : Type) where
  permissions : Option Permissions
  msg : α

/-- Payload of UpdateDatapoints: the map from entry id to datapoint. -/
structure UpdateDatapointsRequest where
  datapoints : List (Int × ProtoDatapoint)
deriving DecidableEq, Repr

/-- Reply of UpdateDatapoints: the map from failing id to wire error code. -/
structure UpdateDatapointsReply where
  errors : List (Int × Int)
deriving DecidableEq, Repr

/-- Status returned whenever a request carries no Permissions object. -/
def unauthenticatedStatus : Status :=
  { code := Code.Unauthenticated, message := "Unauthenticated" }

/-- Batch of EntryUpdate records built from inbound datapoints: each id is
paired with a value-only EntryUpdate. -/
def batchOf (datapoints : List (Int × ProtoDatapoint)) :
    List (Int × EntryUpdate) :=
  datapoints.map fun p => (p.1, entryUpdateOf p.2)

/-- Collector::update_datapoints: rejects a request without Permissions as
Unauthenticated before touching the store; otherwise translates the
datapoints to value-only EntryUpdates, calls update_entries once, and
answers with the (possibly empty) error map, each store failure translated
to its wire code.  Returns the reply or status together with the store
calls made. -/
def update_datapoints (store : StoreModel)
    (request : GrpcRequest UpdateDatapointsRequest) :
    Except Status UpdateDatapointsReply × List StoreCall :=
  match request.permissions with
  | none => (Except.error unauthenticatedStatus, [])
  | some _ =>
    let ids := batchOf request.msg.datapoints
    match store.update_entries ids with
    | Except.ok _ =>
      (Except.ok { errors := [] }, [StoreCall.updateEntries ids])
    | Except.error err =>
      (Except.ok { errors := err.map fun p => (p.1, wireCode p.2) },
       [StoreCall.updateEntries ids])

/-- Payload of one inbound StreamDatapoints message: the map from entry id
to datapoint carried by that batch. -/
structure StreamDatapointsRequest where
  datapoints : List (Int × ProtoDatapoint)
deriving DecidableEq, Repr

/-- One reply message on the error stream: the map from failing id to wire
error code. -/
structure StreamDatapointsReply where
  errors : List (Int × Int)
deriving DecidableEq, Repr

/-- Inbound events observed by the ingestion loop's select, linearized in
the order the select resolves them: a decoded message, a clean end of
stream, a transport read error, or the shutdown broadcast firing. -/
inductive InEvent where
  | message (req : StreamDatapointsRequest)
  | endOfStream
  | readError
  | shutdown
deriving DecidableEq, Repr

/-- Reason the ingestion loop broke out. -/
inductive TermReason where
  | endOfStream
  | readError
  | shutdown
deriving DecidableEq, Repr

/-- Body of the task spawned by stream_datapoints: consumes the linearized
sequence of select outcomes.  sinkOpen tells whether the reply stream
consumer still holds the bounded channel's receiving end; a failed send is
logged and ignored.  Each message batch is translated to value-only
EntryUpdates and applied via update_entries; a failing batch produces one
reply carrying the store's error map translated to wire codes.  Returns
the delivered replies, the store calls made, and the reason the loop broke
(none while the event list is exhausted with the loop still waiting). -/
def streamLoop (store : StoreModel) (sinkOpen : Bool) :
    List InEvent →
    List StreamDatapointsReply × List StoreCall × Option TermReason
  | [] => ([], [], none)
  | InEvent.message req :: rest =>
    let ids := batchOf req.datapoints
    match store.update_entries ids with
    | Except.ok _ =>
      let r := streamLoop store sinkOpen rest
      (r.1, StoreCall.updateEntries ids :: r.2.1, r.2.2)
    | Except.error err =>
      let reply : StreamDatapointsReply :=
        { errors := err.map fun p => (p.1, wireCode p.2) }
      let r := streamLoop store sinkOpen rest
      ((if sinkOpen then [reply] else []) ++ r.1,
       StoreCall.updateEntries ids :: r.2.1, r.2.2)
  | InEvent.endOfStream :: _ => ([], [], some TermReason.endOfStream)
  | InEvent.readError :: _ => ([], [], some TermReason.readError)
  | InEvent.shutdown :: _ => ([], [], some TermReason.shutdown)

/-- Collector::stream_datapoints: rejects a session without Permissions as
Unauthenticated before any store interaction; otherwise the spawned loop
processes the session's events and the call returns the reply stream.
The returned value pairs the session outcome (delivered replies and the
loop's exit reason) with the store calls made. -/
def stream_datapoints (store : StoreModel) (sinkOpen : Bool)
    (request : GrpcRequest (List InEvent)) :
    Except Status (List StreamDatapointsReply × Option TermReason) ×
      List StoreCall :=
  match request.permissions with
  | none => (Except.error unauthenticatedStatus, [])
  | some _ =>
    let r := streamLoop store sinkOpen request.msg
    (Except.ok (r.1, r.2.2), r.2.1)

/-- One registration descriptor of RegisterDatapoints (proto Metadata):
name, raw data type code, raw change type code and description. -/
structure ProtoMetadata where
  name : String
  data_type : Int
  change_type : Int
  description : String
deriving DecidableEq, Repr

/-- Results-map insert mirroring HashMap insert: replaces the value of an
existing name, otherwise appends the pair. -/
def insertResult : List (String × Int) → String → Int →
    List (String × Int)
  | [], k, v => [(k, v)]
  | p :: rest, k, v =>
    if p.1 == k then (k, v) :: rest else p :: insertResult rest k v

/-- Results-map lookup by name. -/
def lookupResult : List (String × Int) → String → Option Int
  | [], _ => none
  | p :: rest, k => if p.1 == k then some p.2 else lookupResult rest k

/-- Loop body of register_datapoints over the descriptor list, with the
accumulated results map: for each descriptor, decode the raw data type and
change type codes; if both decode, delegate to add_entry with the Sensor
role and no bounds, unit or allowed set, and record name to assigned id;
on the first decode failure or add_entry error, stop with a status naming
the descriptor.  Returns the accumulated results, the optional abort
status, and the store calls made. -/
def registerLoop (store : StoreModel) :
    List ProtoMetadata → List (String × Int) →
    List (String × Int) × Option Status × List StoreCall
  | [], results => (results, none, [])
  | m :: rest, results =>
    match ProtoDataType.tryFrom m.data_type,
        ProtoChangeType.tryFrom m.change_type with
    | some vt, some ct =>
      match store.add_entry m.name { ofProto := vt } { ofProto := ct }
          EntryType.Sensor m.description none none none none with
      | Except.ok id =>
        let r := registerLoop store rest (insertResult results m.name id)
        (r.1, r.2.1,
         StoreCall.addEntry m.name { ofProto := vt } { ofProto := ct }
           EntryType.Sensor m.description :: r.2.2)
      | Except.error RegistrationError.PermissionDenied =>
        (results,
         some { code := Code.PermissionDenied,
                message := "Failed to register " ++ m.name },
         [StoreCall.addEntry m.name { ofProto := vt } { ofProto := ct }
           EntryType.Sensor m.description])
      | Except.error RegistrationError.PermissionExpired =>
        (results,
         some { code := Code.Unauthenticated,
                message := "Failed to register " ++ m.name },
         [StoreCall.addEntry m.name { ofProto := vt } { ofProto := ct }
           EntryType.Sensor m.description])
      | Except.error RegistrationError.ValidationError =>
        (results,
         some { code := Code.InvalidArgument,
                message := "Failed to register " ++ m.name },
         [StoreCall.addEntry m.name { ofProto := vt } { ofProto := ct }
           EntryType.Sensor m.description])
    | none, _ =>
      (results,
       some { code := Code.InvalidArgument,
              message := "Unsupported data type provided for " ++ m.name },
       [])
    | some _, none =>
      (results,
       some { code := Code.InvalidArgument,
              message := "Unsupported change type provided for " ++ m.name },
       [])

/-- Collector::register_datapoints: rejects a request without Permissions
as Unauthenticated before any store interaction; otherwise runs the
registration loop from an empty results map and answers with either the
abort status (the accumulated results are dropped) or the full results
map.  Returns the reply or status together with the store calls made. -/
def register_datapoints (store : StoreModel)
    (request : GrpcRequest (List ProtoMetadata)) :
    Except Status (List (String × Int)) × List StoreCall :=
  match request.permissions with
  | none => (Except.error unauthenticatedStatus, [])
  | some _ =>
    let r := registerLoop store request.msg []
    match r.2.1 with
    | some e => (Except.error e, r.2.2)
    | none => (Except.ok r.1, r.2.2)

/-- Batches the ingestion loop actually processes: the messages preceding
the first end-of-stream, read-error or shutdown event. -/
def processedBatches : List InEvent → List StreamDatapointsRequest
  | [] => []
  | InEvent.message req :: rest => req :: processedBatches rest
  | InEvent.endOfStream :: _ => []
  | InEvent.readError :: _ => []
  | InEvent.shutdown :: _ => []

/-- First terminal event of a linearized session, if any. -/
def firstBreak : List InEvent → Option TermReason
  | [] => none
  | InEvent.message _ :: rest => firstBreak rest
  | InEvent.endOfStream :: _ => some TermReason.endOfStream
  | InEvent.readError :: _ => some TermReason.readError
  | InEvent.shutdown :: _ => some TermReason.shutdown

/-- Reply the loop produces for a single batch: none when update_entries
succeeds, otherwise one message carrying the store's error map translated
to wire codes. -/
def replyFor (store : StoreModel) (req : StreamDatapointsRequest) :
    Option StreamDatapointsReply :=
  match store.update_entries (batchOf req.datapoints) with
  | Except.ok _ => none
  | Except.error err =>
    some { errors := err.map fun p => (p.1, wireCode p.2) }

theorem streamLoop_characterization (store : StoreModel) (sinkOpen : Bool)
    (evs : List InEvent) :
    streamLoop store sinkOpen evs =
      ((if sinkOpen then (processedBatches evs).filterMap (replyFor store)
        else []),
       (processedBatches evs).map
         (fun req => StoreCall.updateEntries (batchOf req.datapoints)),
       firstBreak evs) := by
  induction evs with
  | nil => simp [streamLoop, processedBatches, firstBreak]
  | cons e rest ih =>
    cases e with
    | message req =>
      cases h : store.update_entries (batchOf req.datapoints) with
      | ok u =>
        simp [streamLoop, processedBatches, firstBreak, replyFor, h, ih]
      | error err =>
        cases sinkOpen <;>
          simp_all [streamLoop, processedBatches, firstBreak, replyFor, h]
    | endOfStream => simp [streamLoop, processedBatches, firstBreak]
    | readError => simp [streamLoop, processedBatches, firstBreak]
    | shutdown => simp [streamLoop, processedBatches, firstBreak]

/-- Status code register_datapoints answers with for each add_entry
failure kind. -/
def registrationCode : RegistrationError → Code
  | RegistrationError.PermissionDenied => Code.PermissionDenied
  | RegistrationError.PermissionExpired => Code.Unauthenticated
  | RegistrationError.ValidationError => Code.InvalidArgument

/-- Outcome of handling one registration descriptor: the assigned id on
success, or the abort status paired with whether an add_entry call was
issued before aborting. -/
def descrResult (store : StoreModel) (m : ProtoMetadata) :
    Except (Status × Bool) Int :=
  match ProtoDataType.tryFrom m.data_type,
      ProtoChangeType.tryFrom m.change_type with
  | some vt, some ct =>
    match store.add_entry m.name { ofProto := vt } { ofProto := ct }
        EntryType.Sensor m.description none none none none with
    | Except.ok id => Except.ok id
    | Except.error k =>
      Except.error
        ({ code := registrationCode k,
           message := "Failed to register " ++ m.name }, true)
  | none, _ =>
    Except.error
      ({ code := Code.InvalidArgument,
         message := "Unsupported data type provided for " ++ m.name },
       false)
  | some _, none =>
    Except.error
      ({ code := Code.InvalidArgument,
         message := "Unsupported change type provided for " ++ m.name },
       false)

/-- Whether a descriptor is handled without aborting. -/
def descrOk (store : StoreModel) (m : ProtoMetadata) : Bool :=
  match descrResult store m with
  | Except.ok _ => true
  | Except.error _ => false

/-- The add_entry call a descriptor gives rise to when both of its codes
decode (no call is made when decoding fails). -/
def descrCall (m : ProtoMetadata) : List StoreCall :=
  match ProtoDataType.tryFrom m.data_type,
      ProtoChangeType.tryFrom m.change_type with
  | some vt, some ct =>
    [StoreCall.addEntry m.name { ofProto := vt } { ofProto := ct }
      EntryType.Sensor m.description]
  | none, _ => []
  | some _, none => []

/-- Id assigned to a successfully handled descriptor. -/
def assignedId (store : StoreModel) (m : ProtoMetadata) : Int :=
  match descrResult store m with
  | Except.ok id => id
  | Except.error _ => 0

/-- Results map a fully successful registration run accumulates. -/
def regResults (store : StoreModel) (l : List ProtoMetadata) :
    List (String × Int) :=
  l.foldl (fun r m => insertResult r m.name (assignedId store m)) []

theorem registerLoop_all_ok (store : StoreModel) (l : List ProtoMetadata) :
    ∀ acc : List (String × Int),
      (∀ y ∈ l, descrOk store y = true) →
      registerLoop store l acc =
        (l.foldl (fun r m => insertResult r m.name (assignedId store m)) acc,
         none, (l.map descrCall).join) := by
  induction l with
  | nil => intro acc h; simp [registerLoop]
  | cons m rest ih =>
    intro acc h
    have hm := h m (by simp)
    cases hvt : ProtoDataType.tryFrom m.data_type with
    | none => simp [descrOk, descrResult, hvt] at hm
    | some vt =>
      cases hct : ProtoChangeType.tryFrom m.change_type with
      | none => simp [descrOk, descrResult, hvt, hct] at hm
      | some ct =>
        cases hadd : store.add_entry m.name { ofProto := vt }
            { ofProto := ct } EntryType.Sensor m.description
            none none none none with
        | error k => simp [descrOk, descrResult, hvt, hct, hadd] at hm
        | ok id =>
          have hid : assignedId store m = id := by
            simp [assignedId, descrResult, hvt, hct, hadd]
          have ihr := ih (insertResult acc m.name id)
            (fun y hy => h y (List.mem_cons_of_mem _ hy))
          simp [registerLoop, hvt, hct, hadd, descrCall, hid, ihr]

theorem registerLoop_first_err (store : StoreModel) (x : ProtoMetadata)
    (st : Status) (b : Bool)
    (hx : descrResult store x = Except.error (st, b)) :
    ∀ (l1 l2 : List ProtoMetadata) (acc : List (String × Int)),
      (∀ y ∈ l1, descrOk store y = true) →
      registerLoop store (l1 ++ x :: l2) acc =
        (l1.foldl (fun r m => insertResult r m.name (assignedId store m)) acc,
         some st, (l1.map descrCall).join ++ descrCall x) := by
  intro l1
  induction l1 with
  | nil =>
    intro l2 acc h
    cases hvt : ProtoDataType.tryFrom x.data_type with
    | none =>
      simp [descrResult, hvt] at hx
      obtain ⟨h1, h2⟩ := hx
      simp [registerLoop, hvt, descrCall, h1]
    | some vt =>
      cases hct : ProtoChangeType.tryFrom x.change_type with
      | none =>
        simp [descrResult, hvt, hct] at hx
        obtain ⟨h1, h2⟩ := hx
        simp [registerLoop, hvt, hct, descrCall, h1]
      | some ct =>
        cases hadd : store.add_entry x.name { ofProto := vt }
            { ofProto := ct } EntryType.Sensor x.description
            none none none none with
        | ok id => simp [descrResult, hvt, hct, hadd] at hx
        | error k =>
          simp [descrResult, hvt, hct, hadd] at hx
          obtain ⟨h1, h2⟩ := hx
          cases k <;>
            simp_all [registerLoop, hvt, hct, hadd, descrCall,
              registrationCode]
  | cons m rest ih =>
    intro l2 acc h
    have hm := h m (by simp)
    cases hvt : ProtoDataType.tryFrom m.data_type with
    | none => simp [descrOk, descrResult, hvt] at hm
    | some vt =>
      cases hct : ProtoChangeType.tryFrom m.change_type with
      | none => simp [descrOk, descrResult, hvt, hct] at hm
      | some ct =>
        cases hadd : store.add_entry m.name { ofProto := vt }
            { ofProto := ct } EntryType.Sensor m.description
            none none none none with
        | error k => simp [descrOk, descrResult, hvt, hct, hadd] at hm
        | ok id =>
          have hid : assignedId store m = id := by
            simp [assignedId, descrResult, hvt, hct, hadd]
          have ihr := ih l2 (insertResult acc m.name id)
            (fun y hy => h y (List.mem_cons_of_mem _ hy))
          simp [registerLoop, hvt, hct, hadd, descrCall, hid, ihr]

theorem lookupResult_insert_self (m : List (String × Int)) (k : String)
    (v : Int) : lookupResult (insertResult m k v) k = some v := by
  induction m with
  | nil => simp [insertResult, lookupResult]
  | cons p rest ih =>
    by_cases h : p.1 = k
    · simp [insertResult, lookupResult, h]
    · simp [insertResult, lookupResult, h, ih]

theorem lookupResult_insert_other (m : List (String × Int)) (k k' : String)
    (v : Int) (h : k ≠ k') :
    lookupResult (insertResult m k' v) k = lookupResult m k := by
  have h' : ¬ k' = k := fun e => h e.symm
  induction m with
  | nil => simp [insertResult, lookupResult, h']
  | cons p rest ih =>
    by_cases hp : p.1 = k'
    · simp [insertResult, lookupResult, hp, h']
    · simp [insertResult, lookupResult, hp, ih]

theorem lookupResult_foldl_not_mem (store : StoreModel)
    (l : List ProtoMetadata) (k : String)
    (hk : k ∉ l.map ProtoMetadata.name) :
    ∀ acc : List (String × Int),
      lookupResult
        (l.foldl (fun r m => insertResult r m.name (assignedId store m)) acc)
        k = lookupResult acc k := by
  induction l with
  | nil => intro acc; simp
  | cons m rest ih =>
    intro acc
    have hk1 : k ≠ m.name := by
      intro e; exact hk (by simp [e])
    have hk2 : k ∉ rest.map ProtoMetadata.name := by
      intro e; exact hk (by simp [e])
    simpa [ih hk2] using
      lookupResult_insert_other acc k m.name (assignedId store m) hk1

theorem lookupResult_foldl_mem (store : StoreModel)
    (l : List ProtoMetadata) :
    ∀ acc : List (String × Int),
      (l.map ProtoMetadata.name).Nodup →
      ∀ y ∈ l,
        lookupResult
          (l.foldl (fun r m => insertResult r m.name (assignedId store m))
            acc) y.name = some (assignedId store y) := by
  induction l with
  | nil => intro acc hnd y hy; cases hy
  | cons m rest ih =>
    intro acc hnd y hy
    rw [List.map_cons] at hnd
    have hnd' := List.nodup_cons.mp hnd
    rcases List.mem_cons.mp hy with rfl | hy'
    · simp only [List.foldl_cons]
      rw [lookupResult_foldl_not_mem store rest y.name hnd'.1]
      exact lookupResult_insert_self acc y.name _
    · simp only [List.foldl_cons]
      exact ih _ hnd'.2 y hy'

/-- Sample permissions object used by concrete instantiations. -/
def permSample : Permissions := { id := 0 }

/-- Sample store oracle: update batches mentioning id 2 fail there with
OutOfBounds, all other batches succeed; add_entry assigns the name length
as id, except that name "D" fails with PermissionExpired and name "V"
fails with ValidationError. -/
def storeSample : StoreModel where
  update_entries := fun batch =>
    if (batch.map Prod.fst).contains 2 then
      Except.error [(2, UpdateError.OutOfBounds)]
    else Except.ok ()
  add_entry := fun name _ _ _ _ _ _ _ _ =>
    if name = "D" then Except.error RegistrationError.PermissionExpired
    else if name = "V" then Except.error RegistrationError.ValidationError
    else Except.ok (Int.ofNat name.length)

/-- Sample inbound batch whose update fails (it mentions id 2). -/
def reqFail : StreamDatapointsRequest := { datapoints := [(2, { raw := 9 })] }

/-- Sample inbound batch whose update succeeds. -/
def reqOk : StreamDatapointsRequest := { datapoints := [(1, { raw := 5 })] }

/-- C2: under an authorized session with a live reply consumer, the loop
emits exactly the replies of the failing batches: an all-success batch
emits no reply, a failing batch emits one reply whose error map carries
exactly the failing ids, each translated to its wire code. -/
theorem stream_replies_exactly_failures (store : StoreModel)
    (evs : List InEvent) :
    (streamLoop store true evs).1 =
      (processedBatches evs).filterMap (replyFor store) ∧
    (∀ req u,
      store.update_entries (batchOf req.datapoints) = Except.ok u →
      replyFor store req = none) ∧
    (∀ req errs,
      store.update_entries (batchOf req.datapoints) = Except.error errs →
      replyFor store req =
        some { errors := errs.map fun p => (p.1, wireCode p.2) } ∧
      (errs.map fun p => (p.1, wireCode p.2)).map Prod.fst =
        errs.map Prod.fst) := by
  refine ⟨?_, ?_, ?_⟩
  · rw [streamLoop_characterization]
    simp
  · intro req u h
    simp [replyFor, h]
  · intro req errs h
    refine ⟨by simp [replyFor, h], ?_⟩
    simp

theorem stream_replies_exactly_failures_witness :
    replyFor storeSample reqFail = some { errors := [(2, 4)] } ∧
    replyFor storeSample reqOk = none := by
  have h := stream_replies_exactly_failures storeSample []
  refine ⟨?_, h.2.1 reqOk () rfl⟩
  have h2 := (h.2.2 reqFail [(2, UpdateError.OutOfBounds)] rfl).1
  simpa [wireCode] using h2

/-- C3: the ingestion loop is never ended by an update failure: it applies
every batch preceding the first terminal event to the store regardless of
earlier failures, and its exit reason is exactly the first end-of-stream,
read-error or shutdown event, independent of store outcomes. -/
theorem stream_loop_never_aborted_by_failure (store : StoreModel)
    (sinkOpen : Bool) (evs : List InEvent) :
    (streamLoop store sinkOpen evs).2.1 =
      (processedBatches evs).map
        (fun req => StoreCall.updateEntries (batchOf req.datapoints)) ∧
    (streamLoop store sinkOpen evs).2.2 = firstBreak evs := by
  rw [streamLoop_characterization]
  exact ⟨rfl, rfl⟩

/-- C9: with the reply consumer dropped, the loop delivers no replies yet
makes the same store calls and exits for the same reason as with a live
consumer: failed pushes are ignored, the session is not terminated, and
subsequent batches are still applied. -/
theorem stream_closed_sink_continues (store : StoreModel)
    (evs : List InEvent) :
    (streamLoop store false evs).1 = [] ∧
    (streamLoop store false evs).2.1 = (streamLoop store true evs).2.1 ∧
    (streamLoop store false evs).2.2 = (streamLoop store true evs).2.2 := by
  rw [streamLoop_characterization, streamLoop_characterization]
  refine ⟨by simp, by simp, by simp⟩

/-- C5: each of the three collector handlers rejects a request carrying no
Permissions object with the Unauthenticated status and makes no store
call at all. -/
theorem missing_permissions_rejected (store : StoreModel)
    (u : UpdateDatapointsRequest) (evs : List InEvent) (sinkOpen : Bool)
    (l : List ProtoMetadata) :
    update_datapoints store { permissions := none, msg := u } =
      (Except.error unauthenticatedStatus, []) ∧
    stream_datapoints store sinkOpen { permissions := none, msg := evs } =
      (Except.error unauthenticatedStatus, []) ∧
    register_datapoints store { permissions := none, msg := l } =
      (Except.error unauthenticatedStatus, []) :=
  ⟨rfl, rfl, rfl⟩

/-- Sample descriptor with decodable codes and a succeeding add_entry. -/
def descrA : ProtoMetadata :=
  { name := "A", data_type := 1, change_type := 1, description := "da" }

/-- Sample descriptor with an undecodable data type code (13). -/
def descrB : ProtoMetadata :=
  { name := "B", data_type := 13, change_type := 1, description := "db" }

/-- Sample descriptor with decodable codes and a succeeding add_entry. -/
def descrC : ProtoMetadata :=
  { name := "C", data_type := 1, change_type := 1, description := "dc" }

/-- Sample descriptor whose add_entry fails with PermissionExpired. -/
def descrD : ProtoMetadata :=
  { name := "D", data_type := 1, change_type := 1, description := "dd" }

/-- Sample descriptor whose add_entry fails with ValidationError. -/
def descrV : ProtoMetadata :=
  { name := "V", data_type := 1, change_type := 1, description := "dv" }

/-- C4: register_datapoints processes descriptors strictly in input order
and aborts at the first failing one with a status naming it, having made
add_entry calls for exactly the earlier descriptors (plus the failing one
when its codes decoded) and never touching later ones, with no rollback
operation; on an all-success list the reply maps every descriptor's name
to its assigned id. -/
theorem register_datapoints_sequential (store : StoreModel)
    (perm : Permissions) :
    (∀ l1 x l2 st b,
      (∀ y ∈ l1, descrOk store y = true) →
      descrResult store x = Except.error (st, b) →
      register_datapoints store
          { permissions := some perm, msg := l1 ++ x :: l2 } =
        (Except.error st, (l1.map descrCall).join ++ descrCall x)) ∧
    (∀ l, (∀ y ∈ l, descrOk store y = true) →
      register_datapoints store { permissions := some perm, msg := l } =
        (Except.ok (regResults store l), (l.map descrCall).join) ∧
      ((l.map ProtoMetadata.name).Nodup →
        ∀ y ∈ l, lookupResult (regResults store l) y.name =
          some (assignedId store y))) := by
  constructor
  · intro l1 x l2 st b h1 hx
    have h := registerLoop_first_err store x st b hx l1 l2 [] h1
    simp [register_datapoints, h]
  · intro l hl
    have h := registerLoop_all_ok store l [] hl
    refine ⟨by simp [register_datapoints, h, regResults], ?_⟩
    intro hnd y hy
    exact lookupResult_foldl_mem store l [] hnd y hy

theorem register_datapoints_sequential_witness :
    register_datapoints storeSample
        { permissions := some permSample, msg := [descrA, descrB, descrC] } =
      (Except.error { code := Code.InvalidArgument, message := "Unsupported data type provided for B" },
       [StoreCall.addEntry "A" { ofProto := ProtoDataType.Bool }
          { ofProto := ProtoChangeType.OnChange } EntryType.Sensor "da"]) := by
  have h := (register_datapoints_sequential storeSample permSample).1
    [descrA] descrB [descrC]
    { code := Code.InvalidArgument, message := "Unsupported data type provided for B" } false
    (by intro y hy; rcases List.mem_singleton.mp hy with rfl; rfl) rfl
  simpa [descrCall, descrA, descrB] using h

/-- C8: a failing add_entry call makes register_datapoints answer with the
status whose code is the image of the failure kind — PermissionDenied to
PermissionDenied, PermissionExpired to Unauthenticated, ValidationError to
InvalidArgument — naming the failing entry. -/
theorem register_failure_status_codes (store : StoreModel)
    (perm : Permissions) (l1 : List ProtoMetadata) (x : ProtoMetadata)
    (l2 : List ProtoMetadata) (vt : ProtoDataType) (ct : ProtoChangeType)
    (k : RegistrationError)
    (h1 : ∀ y ∈ l1, descrOk store y = true)
    (hvt : ProtoDataType.tryFrom x.data_type = some vt)
    (hct : ProtoChangeType.tryFrom x.change_type = some ct)
    (hk : store.add_entry x.name { ofProto := vt } { ofProto := ct }
        EntryType.Sensor x.description none none none none =
      Except.error k) :
    (register_datapoints store
        { permissions := some perm, msg := l1 ++ x :: l2 }).1 =
      Except.error { code := registrationCode k, message := "Failed to register " ++ x.name } := by
  have hx : descrResult store x = Except.error
      ({ code := registrationCode k, message := "Failed to register " ++ x.name }, true) := by
    simp [descrResult, hvt, hct, hk]
  have h := registerLoop_first_err store x _ _ hx l1 l2 [] h1
  simp [register_datapoints, h]

theorem register_failure_status_codes_witness :
    (register_datapoints storeSample
        { permissions := some permSample, msg := [descrD] }).1 =
      Except.error { code := Code.Unauthenticated, message := "Failed to register D" } := by
  have h := register_failure_status_codes storeSample permSample []
    descrD [] ProtoDataType.Bool ProtoChangeType.OnChange
    RegistrationError.PermissionExpired
    (by intro y hy; cases hy) rfl rfl rfl
  simpa [registrationCode, descrD] using h

/-- C10: when registration aborts, the accumulated name-to-id results are
discarded: the call answers with exactly the abort status (and the store
calls made), never with a partial mapping. -/
theorem register_abort_discards_results (store : StoreModel)
    (perm : Permissions) (l : List ProtoMetadata) (st : Status)
    (h : (registerLoop store l []).2.1 = some st) :
    register_datapoints store { permissions := some perm, msg := l } =
      (Except.error st, (registerLoop store l []).2.2) := by
  simp [register_datapoints, h]

theorem register_abort_discards_results_witness :
    (registerLoop storeSample [descrA, descrV] []).1 = [("A", 1)] ∧
    register_datapoints storeSample
        { permissions := some permSample, msg := [descrA, descrV] } =
      (Except.error { code := Code.InvalidArgument, message := "Failed to register V" },
       (registerLoop storeSample [descrA, descrV] []).2.2) := by
  refine ⟨rfl, ?_⟩
  exact register_abort_discards_results storeSample permSample
    [descrA, descrV] _ rfl

/-- Sample client fresh from construction. -/
def clientFresh : Client :=
  { uri := "http://127.0.0.1:55555", token := none, channel := none,
    connection_state_subs := none }

/-- Sample client whose hub exists and has one live subscriber. -/
def clientLiveHub : Client :=
  { clientFresh with connection_state_subs := some { receivers := 1, log := [] } }

/-- Sample client whose hub exists but whose subscriber handles were all
dropped. -/
def clientDeadHub : Client :=
  { clientFresh with connection_state_subs := some { receivers := 0, log := [] } }

/-- C6: set_access_token succeeds exactly when every byte of the built
header value is legal header-value content, which holds exactly when every
token byte is; on success the client stores "Bearer " ++ token, on failure
it returns MalformedTokenError and is left entirely unchanged. -/
theorem set_access_token_spec (c : Client) (t : List Nat) :
    ((c.set_access_token t).2 = Except.ok () ↔
      (bearerBytes t).all isValidHeaderByte = true) ∧
    ((bearerBytes t).all isValidHeaderByte = t.all isValidHeaderByte) ∧
    (t.all isValidHeaderByte = true →
      c.set_access_token t =
        ({ c with token := some (bearerBytes t) }, Except.ok ())) ∧
    (t.all isValidHeaderByte = false →
      c.set_access_token t =
        (c, Except.error
          (TokenError.MalformedTokenError invalidHeaderValueMsg))) := by
  have hpre : ([66, 101, 97, 114, 101, 114, 32] : List Nat).all
      isValidHeaderByte = true := by decide
  have hall : (bearerBytes t).all isValidHeaderByte =
      t.all isValidHeaderByte := by
    simp [bearerBytes, List.all_append, isValidHeaderByte]
  refine ⟨?_, hall, ?_, ?_⟩
  · by_cases h : (bearerBytes t).all isValidHeaderByte <;>
      simp [Client.set_access_token, h]
  · intro h
    simp [Client.set_access_token, hall, h]
  · intro h
    simp [Client.set_access_token, hall, h]

theorem set_access_token_spec_witness :
    Client.set_access_token clientFresh [10] =
      (clientFresh,
       Except.error (TokenError.MalformedTokenError invalidHeaderValueMsg)) ∧
    Client.set_access_token clientFresh [97, 98, 99] =
      ({ clientFresh with token := some (bearerBytes [97, 98, 99]) },
       Except.ok ()) :=
  ⟨(set_access_token_spec clientFresh [10]).2.2.2 (by decide),
   (set_access_token_spec clientFresh [97, 98, 99]).2.2.1 (by decide)⟩

theorem getHeader_insert_self (m : List (String × List Nat)) (k : String)
    (v : List Nat) : getHeader (insertHeader m k v) k = some v := by
  induction m with
  | nil => simp [insertHeader, getHeader]
  | cons p rest ih =>
    by_cases h : p.1 = k
    · simp [insertHeader, getHeader, h]
    · simp [insertHeader, getHeader, h, ih]

/-- C7: the auth interceptor never fails; with no token set it passes the
request through unchanged, and after a successful set_access_token it
yields the request with its "authorization" header equal to
"Bearer " ++ token. -/
theorem get_auth_interceptor_spec (c : Client) (req : TonicRequest) :
    (∃ r, c.get_auth_interceptor req = Except.ok r) ∧
    (c.token = none → c.get_auth_interceptor req = Except.ok req) ∧
    (∀ t c1, c.set_access_token t = (c1, Except.ok ()) →
      c1.get_auth_interceptor req =
        Except.ok { metadata :=
          insertHeader req.metadata "authorization" (bearerBytes t) } ∧
      getHeader (insertHeader req.metadata "authorization" (bearerBytes t))
        "authorization" = some (bearerBytes t)) := by
  refine ⟨?_, ?_, ?_⟩
  · cases h : c.token with
    | none => exact ⟨req, by simp [Client.get_auth_interceptor, h]⟩
    | some tok =>
      exact ⟨{ metadata := insertHeader req.metadata "authorization" tok },
        by simp [Client.get_auth_interceptor, h]⟩
  · intro h
    simp [Client.get_auth_interceptor, h]
  · intro t c1 hset
    by_cases hv : (bearerBytes t).all isValidHeaderByte
    · rw [Client.set_access_token, if_pos hv] at hset
      have hc1 : c1 = { c with token := some (bearerBytes t) } :=
        (Prod.mk.injEq _ _ _ _).mp hset |>.1.symm
      subst hc1
      exact ⟨by simp [Client.get_auth_interceptor],
        getHeader_insert_self req.metadata "authorization" (bearerBytes t)⟩
    · rw [Client.set_access_token, if_neg hv] at hset
      exact absurd ((Prod.mk.injEq _ _ _ _).mp hset).2 (by simp)

theorem get_auth_interceptor_spec_witness :
    Client.get_auth_interceptor clientFresh { metadata := [] } =
      Except.ok { metadata := [] } ∧
    getHeader (insertHeader [] "authorization" (bearerBytes [97]))
      "authorization" = some (bearerBytes [97]) := by
  refine ⟨(get_auth_interceptor_spec clientFresh { metadata := [] }).2.1 rfl,
    ?_⟩
  have h := (get_auth_interceptor_spec clientFresh
      { metadata := [] }).2.2 [97]
    { clientFresh with token := some (bearerBytes [97]) } (by rfl)
  exact h.2

/-- C1 counterexample: for a client whose connection-state hub exists but
whose subscriber handles were all dropped, a successful transport build
does not make try_connect return success and does not store the channel:
the failed Connected publish is propagated as a Connection error before
the channel is stored. -/
theorem try_connect_success_claim_false :
    (Client.try_connect clientDeadHub (Except.ok 1)).2 ≠ Except.ok () ∧
    (Client.try_connect clientDeadHub (Except.ok 1)).1.channel = none := by
  refine ⟨?_, rfl⟩
  intro h
  rw [show (Client.try_connect clientDeadHub (Except.ok 1)).2 =
    Except.error (KuksaError.Connection
      "Failed to notify connection state change: channel closed") from rfl]
    at h
  cases h

/-- C1 (amended): on a successful transport build, when no hub exists or
the hub's Connected publish succeeds (a live subscriber exists), the event
is delivered where a hub exists, the channel is stored and the call
returns success; when a hub exists but the publish fails (no live
subscriber), no channel is stored and a Connection error is returned.  On
a failed build, a Disconnected event is published best-effort (delivered
only when a live subscriber exists, the send result otherwise ignored),
no channel is stored, and a Connection error carrying the endpoint and
the transport error text is returned.  try_connect_to behaves as
try_connect after replacing the endpoint, and no internal retry exists
(exactly the one supplied build outcome is consumed). -/
theorem try_connect_behavior (c : Client) (ch : Nat) (msg : String)
    (u : String) (build : Except String Nat) :
    (c.connection_state_subs = none →
      c.try_connect (Except.ok ch) =
        ({ c with channel := some ch }, Except.ok ())) ∧
    (∀ subs, c.connection_state_subs = some subs → 0 < subs.receivers →
      c.try_connect (Except.ok ch) =
        ({ c with
            channel := some ch,
            connection_state_subs :=
              some { subs with log := subs.log ++ [ConnectionState.Connected] } },
         Except.ok ())) ∧
    (∀ subs, c.connection_state_subs = some subs → subs.receivers = 0 →
      (c.try_connect (Except.ok ch)).1.channel = c.channel ∧
      (c.try_connect (Except.ok ch)).2 =
        Except.error (KuksaError.Connection
          "Failed to notify connection state change: channel closed")) ∧
    ((c.try_connect (Except.error msg)).1.channel = c.channel ∧
     (c.try_connect (Except.error msg)).2 =
       Except.error (KuksaError.Connection
         ("Failed to connect to " ++ c.uri ++ ": " ++ msg))) ∧
    (∀ subs, c.connection_state_subs = some subs → 0 < subs.receivers →
      (c.try_connect (Except.error msg)).1.connection_state_subs =
        some { subs with log := subs.log ++ [ConnectionState.Disconnected] }) ∧
    (∀ subs, c.connection_state_subs = some subs → subs.receivers = 0 →
      (c.try_connect (Except.error msg)).1 = c) ∧
    (c.try_connect_to u build =
      Client.try_connect { c with uri := u } build) := by
  refine ⟨?_, ?_, ?_, ?_, ?_, ?_, rfl⟩
  · intro h
    simp [Client.try_connect, Client.try_create_channel, h]
  · intro subs h hr
    simp [Client.try_connect, Client.try_create_channel, h, Hub.send,
      Nat.pos_iff_ne_zero.mp hr]
  · intro subs h hr
    constructor <;>
      simp [Client.try_connect, Client.try_create_channel, h, Hub.send, hr]
  · cases h : c.connection_state_subs with
    | none =>
      constructor <;> simp [Client.try_connect, Client.try_create_channel, h]
    | some subs =>
      constructor <;>
        simp [Client.try_connect, Client.try_create_channel, h, Hub.send]
  · intro subs h hr
    simp [Client.try_connect, Client.try_create_channel, h, Hub.send,
      Nat.pos_iff_ne_zero.mp hr]
  · intro subs h hr
    simp [Client.try_connect, Client.try_create_channel, h, Hub.send, hr]
    rw [← h]

theorem try_connect_behavior_witness :
    Client.try_connect clientLiveHub (Except.ok 3) =
      ({ clientLiveHub with
          channel := some 3,
          connection_state_subs :=
            some { receivers := 1, log := [ConnectionState.Connected] } },
       Except.ok ()) ∧
    (Client.try_connect clientFresh (Except.error "refused")).2 =
      Except.error (KuksaError.Connection
        ("Failed to connect to " ++ clientFresh.uri ++ ": " ++ "refused")) := by
  constructor
  · have h := (try_connect_behavior clientLiveHub 3 "" "" (Except.ok 0)).2.1
      { receivers := 1, log := [] } rfl (by decide)
    simpa using h
  · exact ((try_connect_behavior clientFresh 3 "refused" ""
      (Except.ok 0)).2.2.2.1).2
